import Mathlib

/-!
Shallow embedding of `refresh_moodle_stats.py`, a single-run Moodle
statistics-refresh script.  The embedding covers the parts of the script
exercised by the specification claims: the quiz-id file parser
(`read_quiz_ids_from_file`), the login-failure classification of Stage 1,
the session-cookie lookup of Stage 2, the Stage 4 batch loop with its
session-expiry short-circuit, per-item exception classification and
inter-request pacing, and the `finally` summary block.

Network interactions are represented by environment-supplied outcomes: each
HTTP request the script issues is paired with the response (final URL,
status code, parsed page content) or the exception the `requests` library
would deliver.  Python's unbounded ints are `Nat`/`Int`; Python strings are
Lean `String` manipulated through their underlying `List Char`.
-/

/-- Does `needle` occur at the very front of `hay`? -/
def startsWithChars : List Char → List Char → Bool
  | [], _ => true
  | _ :: _, [] => false
  | c :: cs, d :: ds => c == d && startsWithChars cs ds

/-- Does `needle` occur anywhere inside `hay`? -/
def containsChars (hay needle : List Char) : Bool :=
  match hay with
  | [] => needle.isEmpty
  | _ :: rest => startsWithChars needle hay || containsChars rest needle

/-- Python's `needle in hay` on strings: substring containment. -/
def strContains (hay needle : String) : Bool :=
  containsChars hay.data needle.data

/-- Python's `str.lower()` (ASCII case folding; the script only compares
ASCII markers such as cookie names and error substrings). -/
def lowerStr (s : String) : String :=
  ⟨s.data.map Char.toLower⟩

/-- Strip whitespace from the front and back of a character list, as
Python's `str.strip()` does (ASCII whitespace). -/
def stripChars (l : List Char) : List Char :=
  ((l.dropWhile Char.isWhitespace).reverse.dropWhile Char.isWhitespace).reverse

/-- Python's `line.strip()`. -/
def pyStrip (s : String) : String :=
  ⟨stripChars s.data⟩

/-- Digit-string value for Python's `int()`: one or more decimal digits,
with single underscores permitted strictly between digits (PEP 515).
Accumulator `acc` holds the value of the digits consumed so far. -/
def pyDigitsAux : Nat → List Char → Option Nat
  | acc, [] => some acc
  | acc, '_' :: c :: rest =>
    if c.isDigit then pyDigitsAux (acc * 10 + (c.toNat - 48)) rest else none
  | acc, c :: rest =>
    if c.isDigit then pyDigitsAux (acc * 10 + (c.toNat - 48)) rest else none

/-- Value of a nonempty decimal digit run (with PEP 515 underscores). -/
def pyDigits : List Char → Option Nat
  | [] => none
  | c :: rest => if c.isDigit then pyDigitsAux (c.toNat - 48) rest else none

/-- Python's `int(s)` on an already-stripped string: an optional `+`/`-`
sign followed by decimal digits; `none` models the `ValueError` raised on
anything else.  (Non-ASCII decimal digits accepted by CPython are not
modelled; the quiz-id files at issue are ASCII.) -/
def pyInt : String → Option Int
  | s =>
    match s.data with
    | '+' :: rest => (pyDigits rest).map Int.ofNat
    | '-' :: rest => (pyDigits rest).map (fun n => -(n : Int))
    | l => (pyDigits l).map Int.ofNat

/-- Python's `line.startswith('#')`. -/
def isHashStart (s : String) : Bool :=
  match s.data with
  | c :: _ => c == '#'
  | [] => false

/-- Result of `read_quiz_ids_from_file` on a readable file: the collected
quiz ids and the 1-based line numbers for which the non-numeric warning was
printed. -/
structure ParseOut where
  quiz_ids : List Int
  warned_lines : List Nat
deriving DecidableEq, Repr

/-- The loop body of `read_quiz_ids_from_file`, over the file's lines with
`n` the 1-based number of the current line (`enumerate(f, 1)`): strip the
line; silently `continue` on an empty or `#`-starting result; otherwise
`int(line)` either appends to `quiz_ids` or prints the skip warning. -/
def readGo : Nat → List String → ParseOut
  | _, [] => ⟨[], []⟩
  | n, line :: rest =>
    let s := pyStrip line
    if s.data.isEmpty || isHashStart s then readGo (n + 1) rest
    else
      match pyInt s with
      | some v =>
        let out := readGo (n + 1) rest
        ⟨v :: out.quiz_ids, out.warned_lines⟩
      | none =>
        let out := readGo (n + 1) rest
        ⟨out.quiz_ids, n :: out.warned_lines⟩

/-- `read_quiz_ids_from_file` applied to the lines of a readable file
(the missing-file and IO-error paths, which return `None`, are handled at
the whole-run level). -/
def read_quiz_ids_from_file (lines : List String) : ParseOut :=
  readGo 1 lines

/-- Specification-side description of one line's contribution to the id
list: the stripped line, when neither blank nor a `#` comment, parsed as an
integer. -/
def keptId (line : String) : Option Int :=
  let s := pyStrip line
  if s.data.isEmpty || isHashStart s then none else pyInt s

/-- Specification-side description of the lines that draw the non-numeric
warning: stripped nonempty, not a `#` comment, and failing `int()`. -/
def isWarnLine (line : String) : Bool :=
  let s := pyStrip line
  !(s.data.isEmpty || isHashStart s) && (pyInt s).isNone

/-!
Stage 4: the batch loop.  The script keeps `success_count`,
`failure_count` and the `session_expired` flag across iterations.
-/

/-- The script's running counters and expiry flag. -/
structure BatchState where
  success_count : Nat
  failure_count : Nat
  session_expired : Bool
deriving DecidableEq, Repr

/-- Content of a statistics response relevant to the soft error-marker
check: the three markup lookups, the page title (`none` when the page has
no `title` element), and the full body text. -/
structure StatsPage where
  errorbox : Bool
  pageLoginIndex : Bool
  errormessage : Bool
  title : Option String
  body : String
deriving DecidableEq, Repr

/-- The marker test of the batch loop: any of `class='errorbox'`,
`id='page-login-index'`, `class='errormessage'`, `"error"`/`"notice"` in
the lowercased title, or the two permission/course-module substrings in the
lowercased body. -/
def hasErrorMarker (p : StatsPage) : Bool :=
  let pageTitle := match p.title with | some t => lowerStr t | none => ""
  p.errorbox || p.pageLoginIndex || p.errormessage
    || strContains pageTitle "error" || strContains pageTitle "notice"
    || strContains (lowerStr p.body) "invalid course module id"
    || strContains (lowerStr p.body) "you do not have permission"

/-- Outcome of one `session.get(stats_url, ...)` call, as delivered by the
environment: a response (final URL after redirects, status code, parsed
page), or one of the exceptions the per-item handlers distinguish. -/
inductive FetchResult where
  | resp (url : String) (status : Nat) (page : StatsPage)
  | timeout
  | netError
  | otherError
deriving DecidableEq, Repr

/-- `response.raise_for_status()` raises `HTTPError` exactly for 4xx/5xx
status codes. -/
def isHTTPErrorStatus (s : Nat) : Bool :=
  decide (400 ≤ s) && decide (s < 600)

/-- The login-page test used at Stage 1 (line 192) and in the batch loop
(line 231): `LOGIN_URL in url or login_path in url`, i.e. substring
containment of either the full login URL or the login path. -/
def respIsLoginPage (loginURL loginPath url : String) : Bool :=
  strContains url loginURL || strContains url loginPath

/-- Result of one iteration's body: the updated counters, whether the
iteration ended with `continue` (which skips the inter-request sleep), and
whether the soft error-marker warning was printed. -/
structure ItemResult where
  state : BatchState
  contin : Bool
  warned : Bool
deriving DecidableEq, Repr

/-- Body of one batch iteration, given the outcome of its request:
login-redirect responses mark the item failed, set `session_expired` and
`continue`; other responses go through `raise_for_status` (the `HTTPError`
handler adds a failure and flags expiry for 401/403) and otherwise count a
success, with the marker check emitting only a warning.  `Timeout`,
`RequestException` and generic exceptions each add a failure. -/
def processItem (loginURL loginPath : String) (st : BatchState)
    (fr : FetchResult) : ItemResult :=
  match fr with
  | .resp url status page =>
    if respIsLoginPage loginURL loginPath url then
      ⟨⟨st.success_count, st.failure_count + 1, true⟩, true, false⟩
    else if isHTTPErrorStatus status then
      ⟨⟨st.success_count, st.failure_count + 1,
        st.session_expired || (status == 401 || status == 403)⟩,
       false, false⟩
    else
      ⟨⟨st.success_count + 1, st.failure_count, st.session_expired⟩,
       false, hasErrorMarker page⟩
  | .timeout =>
    ⟨⟨st.success_count, st.failure_count + 1, st.session_expired⟩, false, false⟩
  | .netError =>
    ⟨⟨st.success_count, st.failure_count + 1, st.session_expired⟩, false, false⟩
  | .otherError =>
    ⟨⟨st.success_count, st.failure_count + 1, st.session_expired⟩, false, false⟩

/-- Final observable effect of the batch loop: the counters plus the number
of network requests issued and the number of `time.sleep` pauses taken. -/
structure BatchOut where
  st : BatchState
  requests : Nat
  sleeps : Nat
deriving DecidableEq, Repr

/-- The Stage 4 `for` loop over the remaining planned outcomes.  At the top
of each iteration, a set `session_expired` flag overwrites
`failure_count` with the count of remaining items
(`failure_count = len(quiz_ids) - i`, and the remaining sublist at index
`i` has length `len(quiz_ids) - i`) and breaks.  Otherwise the body runs
and, unless the body ended in `continue` or this was the last item, one
inter-request pause is taken. -/
def batchGo (loginURL loginPath : String) :
    List FetchResult → BatchState → BatchOut
  | [], st => ⟨st, 0, 0⟩
  | fr :: rest, st =>
    if st.session_expired then
      ⟨⟨st.success_count, rest.length + 1, st.session_expired⟩, 0, 0⟩
    else
      let r := processItem loginURL loginPath st fr
      let slept := if r.contin = false ∧ rest ≠ [] then 1 else 0
      let out := batchGo loginURL loginPath rest r.state
      ⟨out.st, out.requests + 1, out.sleeps + slept⟩

/-- The whole Stage 4 run: counters start at zero with the expiry flag
clear; `outcomes` lists, in order, the environment's planned response for
each quiz id's statistics request. -/
def runBatch (loginURL loginPath : String) (outcomes : List FetchResult) :
    BatchOut :=
  batchGo loginURL loginPath outcomes ⟨0, 0, false⟩

/-- One iteration's effect on the counters alone. -/
def stepState (loginURL loginPath : String) (st : BatchState)
    (fr : FetchResult) : BatchState :=
  (processItem loginURL loginPath st fr).state

/-- Counter evolution over a list of outcomes, ignoring the loop's
short-circuit (used to phrase hypotheses about runs whose prefix never
trips the expiry flag). -/
def foldState (loginURL loginPath : String) (l : List FetchResult)
    (st : BatchState) : BatchState :=
  l.foldl (stepState loginURL loginPath) st

/-!
The whole run: URL normalisation, Stage 1 login, Stage 2 cookie check,
Stage 3 file read, Stage 4 batch loop, and the `finally` summary block.
-/

/-- `moodle_base_url.rstrip('/')`. -/
def normalizeBase (s : String) : String :=
  ⟨((s.data.reverse.dropWhile (fun c => c == '/'))).reverse⟩

/-- `'/' + login_path.lstrip('/')`. -/
def normalizePath (s : String) : String :=
  ⟨'/' :: s.data.dropWhile (fun c => c == '/')⟩

/-- Configuration values that influence the modelled behaviour (username,
password, the unused post-login check path, the delay length and the TLS
flag do not change any branch the claims are about). -/
structure Config where
  base_url : String
  login_path : String
deriving DecidableEq, Repr

/-- `LOGIN_URL = moodle_base_url + login_path` after normalisation. -/
def cfgLoginURL (c : Config) : String :=
  ⟨(normalizeBase c.base_url).data ++ (normalizePath c.login_path).data⟩

/-- The normalised `login_path` variable used in the containment checks. -/
def cfgLoginPath (c : Config) : String :=
  normalizePath c.login_path

/-- Error markup of the post-submission login page: the stripped text of
each of the three divs the script looks for, when present. -/
structure LoginPage where
  loginerrormessage : Option String
  loginerrors : Option String
  alertDanger : Option String
deriving DecidableEq, Repr

/-- Fallback message when none of the three error divs is found. -/
def genericLoginError : String :=
  "Unknown reason (check credentials/URL in config)"

/-- `error_div = find(id='loginerrormessage') or find(class_='loginerrors')
or find(class_='alert-danger')`; the text of the first found div, or the
generic fallback. -/
def loginErrorText (p : LoginPage) : String :=
  match p.loginerrormessage with
  | some t => t
  | none =>
    match p.loginerrors with
    | some t => t
    | none =>
      match p.alertDanger with
      | some t => t
      | none => genericLoginError

/-- Outcome of the Stage 1 `session.get(LOGIN_URL)`: its status code and
whether a `logintoken` input was found in the returned markup, or an
exception (`ConnectionError`, `SSLError`, `Timeout`, other
`RequestException`) caught by the outer handlers. -/
inductive GetLoginResult where
  | resp (status : Nat) (tokenFound : Bool)
  | exc
deriving DecidableEq, Repr

/-- Outcome of the Stage 1 `session.post(LOGIN_URL, ...)`: final URL after
redirects, status code and error markup, or an exception caught by the
outer handlers. -/
inductive PostLoginResult where
  | resp (finalUrl : String) (status : Nat) (page : LoginPage)
  | exc
deriving DecidableEq, Repr

/-- `next((n for n in session.cookies.keys() if 'moodlesession' in
n.lower()), None)`. -/
def findSessionCookie (names : List String) : Option String :=
  names.find? (fun n => strContains (lowerStr n) "moodlesession")

/-- Everything the environment decides during a run: the two login
requests, the cookie jar after login, the quiz-id file (`none` when
missing or unreadable, `some lines` otherwise) and the planned outcome of
the `i`-th statistics request. -/
structure RunEnv where
  getLogin : GetLoginResult
  postLogin : PostLoginResult
  cookieNames : List String
  quizFile : Option (List String)
  fetch : Nat → FetchResult

/-- The closing summary's four reported numbers. -/
structure Summary where
  read : Nat
  attempted : Nat
  succeeded : Nat
  failed : Nat
deriving DecidableEq, Repr

/-- Observable outcome of a whole run: process exit status, whether the
summary block printed its counts (and what they were), the login-failure
message if one was printed, how many statistics requests were issued, how
many pauses were slept, and whether the `finally` block itself crashed
(`NameError` on the undefined counters of the empty-list path). -/
structure RunResult where
  exitCode : Nat
  summaryEmitted : Bool
  summary : Option Summary
  loginFailMsg : Option String
  batchRequests : Nat
  sleeps : Nat
  finallyCrash : Bool
deriving Repr

/-- The script's main flow.  Exceptions during Stages 1-3 fall to the outer
handlers, which print and let the script end normally (exit 0) after the
`finally` block; `sys.exit(1)` paths raise `SystemExit` (not caught by the
`except Exception` handler) so the process exits 1.  The `finally` summary
prints only when `quiz_ids` exists and is not `None`; when the list was
read but empty, `sys.exit(0)` reaches `finally` with `success_count`
undefined, so the summary block raises `NameError` and the process exits
with a traceback instead of the summary. -/
def runScript (cfg : Config) (env : RunEnv) : RunResult :=
  match env.getLogin with
  | .exc => ⟨0, false, none, none, 0, 0, false⟩
  | .resp s1 _tok =>
    if isHTTPErrorStatus s1 then ⟨0, false, none, none, 0, 0, false⟩
    else
      match env.postLogin with
      | .exc => ⟨0, false, none, none, 0, 0, false⟩
      | .resp u s2 page =>
        if isHTTPErrorStatus s2 then ⟨0, false, none, none, 0, 0, false⟩
        else if respIsLoginPage (cfgLoginURL cfg) (cfgLoginPath cfg) u then
          ⟨1, false, none, some (loginErrorText page), 0, 0, false⟩
        else
          match findSessionCookie env.cookieNames with
          | none => ⟨1, false, none, none, 0, 0, false⟩
          | some _ =>
            match env.quizFile with
            | none => ⟨1, false, none, none, 0, 0, false⟩
            | some lines =>
              let ids := (read_quiz_ids_from_file lines).quiz_ids
              if ids.isEmpty then ⟨1, false, none, none, 0, 0, true⟩
              else
                let out := runBatch (cfgLoginURL cfg) (cfgLoginPath cfg)
                  ((List.range ids.length).map env.fetch)
                ⟨0, true,
                 some ⟨ids.length, out.st.success_count + out.st.failure_count,
                       out.st.success_count, out.st.failure_count⟩,
                 none, out.requests, out.sleeps, false⟩

/-- The run reaches Stage 4: both login requests completed with non-error
statuses, the post-submission URL did not match the login page, a session
cookie was found, and the quiz-id file was read with at least one valid
entry. -/
def reachesBatch (cfg : Config) (env : RunEnv) : Bool :=
  match env.getLogin with
  | .exc => false
  | .resp s1 _ =>
    !isHTTPErrorStatus s1 &&
    match env.postLogin with
    | .exc => false
    | .resp u s2 _ =>
      !isHTTPErrorStatus s2 &&
      !respIsLoginPage (cfgLoginURL cfg) (cfgLoginPath cfg) u &&
      (findSessionCookie env.cookieNames).isSome &&
      match env.quizFile with
      | none => false
      | some lines => !(read_quiz_ids_from_file lines).quiz_ids.isEmpty

/-!
Concrete instances used to witness the theorems below.
-/

/-- A small concrete configuration: base URL with a trailing slash, login
path without a leading one, exercising the normalisation. -/
def cfgEx : Config := ⟨"https://m.ex/", "login"⟩

/-- A statistics page with no error markers. -/
def pagePlain : StatsPage := ⟨false, false, false, some "Quiz statistics", "stats table"⟩

/-- A statistics page carrying an error box and an error title. -/
def pageMarked : StatsPage := ⟨true, false, false, some "Error", "x"⟩

/-- A successful statistics response for some quiz id. -/
def okResp : FetchResult :=
  .resp "https://m.ex/mod/quiz/report.php?id=101&mode=statistics" 200 pagePlain

/-- A response redirected back to the login page (session expiry). -/
def redirResp : FetchResult := .resp "https://m.ex/login" 200 pagePlain

/-- A login page carrying none of the three error divs. -/
def pageNoErrDivs : LoginPage := ⟨none, none, none⟩

/-- A run whose login submission lands back on the login page. -/
def envLoginFail : RunEnv :=
  ⟨.resp 200 true, .resp "https://m.ex/login" 200 pageNoErrDivs, [],
   none, fun _ => FetchResult.otherError⟩

/-- A fully successful run: login lands on the dashboard, the session
cookie is present, three quiz ids are read and every request succeeds. -/
def envGood : RunEnv :=
  ⟨.resp 200 true, .resp "https://m.ex/my/" 200 pageNoErrDivs,
   ["MoodleSession"], some ["101", "102", "103"], fun _ => okResp⟩

/-- A run whose post-submission URL strictly contains the login URL (query
string appended), exercising the substring nature of the check. -/
def envQueryLogin : RunEnv :=
  ⟨.resp 200 true, .resp "https://m.ex/login?testsession=1" 200 pageNoErrDivs,
   [], none, fun _ => FetchResult.otherError⟩

/-!
Helper lemmas about the batch loop.
-/

/-- A set expiry flag survives one iteration body. -/
theorem stepState_expired_mono (lu lp : String) (st : BatchState)
    (fr : FetchResult) (h : st.session_expired = true) :
    (stepState lu lp st fr).session_expired = true := by
  cases fr with
  | resp u s pg =>
    by_cases h1 : respIsLoginPage lu lp u = true
    · simp [stepState, processItem, h1]
    · by_cases h2 : isHTTPErrorStatus s = true
      · simp [stepState, processItem, h1, h2, h]
      · simp [stepState, processItem, h1, h2, h]
  | timeout => simpa [stepState, processItem] using h
  | netError => simpa [stepState, processItem] using h
  | otherError => simpa [stepState, processItem] using h

/-- A set expiry flag survives any sequence of iteration bodies. -/
theorem foldState_expired_mono (lu lp : String) (l : List FetchResult) :
    ∀ st : BatchState, st.session_expired = true →
      (foldState lu lp l st).session_expired = true := by
  induction l with
  | nil => intro st h; simpa [foldState] using h
  | cons fr rest ih =>
    intro st h
    exact ih (stepState lu lp st fr) (stepState_expired_mono lu lp st fr h)

/-- Only the login-redirect branch ends in `continue`, and that branch sets
the expiry flag. -/
theorem contin_implies_expired (lu lp : String) (st : BatchState)
    (fr : FetchResult) (h : (processItem lu lp st fr).contin = true) :
    (processItem lu lp st fr).state.session_expired = true := by
  cases fr with
  | resp u s pg =>
    by_cases h1 : respIsLoginPage lu lp u = true
    · simp [processItem, h1]
    · by_cases h2 : isHTTPErrorStatus s = true
      · simp [processItem, h1, h2] at h
      · simp [processItem, h1, h2] at h
  | timeout => simp [processItem] at h
  | netError => simp [processItem] at h
  | otherError => simp [processItem] at h

/-- An iteration that trips the expiry flag does not add a success. -/
theorem step_expiring_keeps_succ (lu lp : String) (st : BatchState)
    (fr : FetchResult) (h0 : st.session_expired = false)
    (hexp : (stepState lu lp st fr).session_expired = true) :
    (stepState lu lp st fr).success_count = st.success_count := by
  cases fr with
  | resp u s pg =>
    by_cases h1 : respIsLoginPage lu lp u = true
    · simp [stepState, processItem, h1]
    · by_cases h2 : isHTTPErrorStatus s = true
      · simp [stepState, processItem, h1, h2]
      · simp [stepState, processItem, h1, h2, h0] at hexp
  | timeout => simp [stepState, processItem, h0] at hexp
  | netError => simp [stepState, processItem, h0] at hexp
  | otherError => simp [stepState, processItem, h0] at hexp

/-- One iteration adds at most one success. -/
theorem stepState_succ_le (lu lp : String) (st : BatchState) (fr : FetchResult) :
    (stepState lu lp st fr).success_count ≤ st.success_count + 1 := by
  cases fr with
  | resp u s pg =>
    by_cases h1 : respIsLoginPage lu lp u = true
    · simp [stepState, processItem, h1]
    · by_cases h2 : isHTTPErrorStatus s = true
      · simp [stepState, processItem, h1, h2]
      · simp [stepState, processItem, h1, h2]
  | timeout => simp [stepState, processItem]
  | netError => simp [stepState, processItem]
  | otherError => simp [stepState, processItem]

/-- Successes are bounded by the number of processed items. -/
theorem foldState_succ_le (lu lp : String) (l : List FetchResult) :
    ∀ st : BatchState,
      (foldState lu lp l st).success_count ≤ st.success_count + l.length := by
  induction l with
  | nil => intro st; simp [foldState]
  | cons fr rest ih =>
    intro st
    have h1 := ih (stepState lu lp st fr)
    have h2 := stepState_succ_le lu lp st fr
    calc (foldState lu lp (fr :: rest) st).success_count
        = (foldState lu lp rest (stepState lu lp st fr)).success_count := rfl
      _ ≤ (stepState lu lp st fr).success_count + rest.length := h1
      _ ≤ (st.success_count + 1) + rest.length := Nat.add_le_add_right h2 _
      _ = st.success_count + (fr :: rest).length := by simp [List.length_cons]; omega

/-- The loop never clears a set expiry flag. -/
theorem batchGo_expired_mono (lu lp : String) (l : List FetchResult)
    (st : BatchState) (h : st.session_expired = true) :
    (batchGo lu lp l st).st.session_expired = true := by
  cases l with
  | nil => simpa [batchGo] using h
  | cons fr rest => simp [batchGo, h]

/-- Unfolding `foldState` over a cons cell. -/
theorem foldState_cons_eq (lu lp : String) (fr : FetchResult)
    (rest : List FetchResult) (st : BatchState) :
    foldState lu lp (fr :: rest) st = foldState lu lp rest (stepState lu lp st fr) := rfl

/-- A run in which the expiry flag never fires is exactly the fold of the
iteration bodies: one request per item and one pause between consecutive
items. -/
theorem batchGo_no_expiry (lu lp : String) (l : List FetchResult) :
    ∀ st : BatchState, st.session_expired = false →
      (batchGo lu lp l st).st.session_expired = false →
      batchGo lu lp l st = ⟨foldState lu lp l st, l.length, l.length - 1⟩ := by
  induction l with
  | nil => intro st h0 _; simp [batchGo, foldState]
  | cons fr rest ih =>
    intro st h0 h1
    have hstep : (stepState lu lp st fr).session_expired = false := by
      by_contra hc
      rw [Bool.not_eq_false] at hc
      have := batchGo_expired_mono lu lp rest (stepState lu lp st fr) hc
      simp [batchGo, h0, stepState] at h1
      rw [show (processItem lu lp st fr).state = stepState lu lp st fr from rfl] at h1
      exact absurd this (by simp [h1])
    have hcont : (processItem lu lp st fr).contin = false := by
      by_contra hc
      rw [Bool.not_eq_false] at hc
      have := contin_implies_expired lu lp st fr hc
      exact absurd this (by simp [stepState] at hstep; simp [hstep])
    have hrec : (batchGo lu lp rest (stepState lu lp st fr)).st.session_expired = false := by
      simpa [batchGo, h0, stepState] using h1
    have hout := ih (stepState lu lp st fr) hstep hrec
    simp only [batchGo, h0, Bool.false_eq_true, if_false]
    rw [show (processItem lu lp st fr).state = stepState lu lp st fr from rfl, hout]
    cases rest with
    | nil => simp [hcont, foldState_cons_eq]
    | cons x xs => simp [hcont, foldState_cons_eq, List.length_cons]

/-- Splitting the loop after an expiry-free leading segment: the loop first
processes the segment item by item (one request each) and then continues
from the folded state. -/
theorem batchGo_split_front (lu lp : String) (pre l2 : List FetchResult) :
    ∀ st : BatchState, st.session_expired = false →
      (foldState lu lp pre st).session_expired = false →
      (batchGo lu lp (pre ++ l2) st).st
          = (batchGo lu lp l2 (foldState lu lp pre st)).st ∧
      (batchGo lu lp (pre ++ l2) st).requests
          = pre.length + (batchGo lu lp l2 (foldState lu lp pre st)).requests := by
  induction pre with
  | nil => intro st h0 _; simp [foldState]
  | cons fr rest ih =>
    intro st h0 hfold
    rw [foldState_cons_eq] at hfold
    have hstep : (stepState lu lp st fr).session_expired = false := by
      by_contra hc
      rw [Bool.not_eq_false] at hc
      have := foldState_expired_mono lu lp rest (stepState lu lp st fr) hc
      simp [this] at hfold
    have hrec := ih (stepState lu lp st fr) hstep hfold
    constructor
    · calc (batchGo lu lp (fr :: rest ++ l2) st).st
          = (batchGo lu lp (rest ++ l2) (stepState lu lp st fr)).st := by
            simp [batchGo, h0, stepState]
        _ = (batchGo lu lp l2 (foldState lu lp rest (stepState lu lp st fr))).st := hrec.1
        _ = (batchGo lu lp l2 (foldState lu lp (fr :: rest) st)).st := by
            rw [foldState_cons_eq]
    · calc (batchGo lu lp (fr :: rest ++ l2) st).requests
          = (batchGo lu lp (rest ++ l2) (stepState lu lp st fr)).requests + 1 := by
            simp [batchGo, h0, stepState]
        _ = rest.length + (batchGo lu lp l2 (foldState lu lp rest (stepState lu lp st fr))).requests + 1 := by
            rw [hrec.2]
        _ = (fr :: rest).length + (batchGo lu lp l2 (foldState lu lp (fr :: rest) st)).requests := by
            rw [foldState_cons_eq]; simp [List.length_cons]; omega

/-- Unfolding the loop at an iteration whose entry state is expired: the
bulk overwrite and the break. -/
theorem batchGo_break (lu lp : String) (st : BatchState) (fr : FetchResult)
    (rest : List FetchResult) (hexp : st.session_expired = true) :
    batchGo lu lp (fr :: rest) st
      = ⟨⟨st.success_count, rest.length + 1, true⟩, 0, 0⟩ := by
  simp [batchGo, hexp]

/-- Unfolding the loop at an iteration whose entry state is not expired:
one request, the body, and possibly one pause. -/
theorem batchGo_cons_active (lu lp : String) (st : BatchState)
    (fr : FetchResult) (rest : List FetchResult)
    (h : st.session_expired = false) :
    batchGo lu lp (fr :: rest) st =
      ⟨(batchGo lu lp rest (stepState lu lp st fr)).st,
       (batchGo lu lp rest (stepState lu lp st fr)).requests + 1,
       (batchGo lu lp rest (stepState lu lp st fr)).sleeps +
         (if (processItem lu lp st fr).contin = false ∧ rest ≠ [] then 1 else 0)⟩ := by
  simp [batchGo, h, stepState]

/-- C1 (amended to the code): in a run over `N = pre.length + 1 +
post.length` identifiers where the expiry is first detected on request
`k = pre.length + 1` and `k < N`, exactly `k` requests are issued, at most
`k - 1` items succeed, and the final tally counts `N - k = post.length`
failed/skipped: the bulk assignment `failure_count = len(quiz_ids) - i`
overwrites the earlier per-item increments, including the expiry item's
own failure, so the claimed `N - k + 1` is not reported. -/
theorem c1_expiry_run_tally (lu lp : String) (pre post : List FetchResult)
    (e : FetchResult)
    (hpre : (foldState lu lp pre ⟨0, 0, false⟩).session_expired = false)
    (he : (stepState lu lp (foldState lu lp pre ⟨0, 0, false⟩) e).session_expired = true)
    (hpost : post ≠ []) :
    (runBatch lu lp (pre ++ e :: post)).requests = pre.length + 1 ∧
    (runBatch lu lp (pre ++ e :: post)).st.success_count ≤ pre.length ∧
    (runBatch lu lp (pre ++ e :: post)).st.failure_count = post.length ∧
    (runBatch lu lp (pre ++ e :: post)).st.session_expired = true := by
  obtain ⟨p, ps, rfl⟩ : ∃ p ps, post = p :: ps := by
    cases post with
    | nil => exact absurd rfl hpost
    | cons p ps => exact ⟨p, ps, rfl⟩
  have hsplit := batchGo_split_front lu lp pre (e :: p :: ps) ⟨0, 0, false⟩ rfl hpre
  have hcons := batchGo_cons_active lu lp (foldState lu lp pre ⟨0, 0, false⟩) e (p :: ps) hpre
  have hbreak := batchGo_break lu lp (stepState lu lp (foldState lu lp pre ⟨0, 0, false⟩) e) p ps he
  have hsucc := step_expiring_keeps_succ lu lp (foldState lu lp pre ⟨0, 0, false⟩) e hpre he
  have hle := foldState_succ_le lu lp pre ⟨0, 0, false⟩
  have hst : (runBatch lu lp (pre ++ e :: p :: ps)).st
      = ⟨(foldState lu lp pre ⟨0, 0, false⟩).success_count, ps.length + 1, true⟩ := by
    calc (runBatch lu lp (pre ++ e :: p :: ps)).st
        = (batchGo lu lp (e :: p :: ps) (foldState lu lp pre ⟨0, 0, false⟩)).st := hsplit.1
      _ = (batchGo lu lp (p :: ps) (stepState lu lp (foldState lu lp pre ⟨0, 0, false⟩) e)).st := by
          rw [hcons]
      _ = ⟨(stepState lu lp (foldState lu lp pre ⟨0, 0, false⟩) e).success_count, ps.length + 1, true⟩ := by
          rw [hbreak]
      _ = ⟨(foldState lu lp pre ⟨0, 0, false⟩).success_count, ps.length + 1, true⟩ := by
          rw [hsucc]
  have hreq : (runBatch lu lp (pre ++ e :: p :: ps)).requests = pre.length + 1 := by
    calc (runBatch lu lp (pre ++ e :: p :: ps)).requests
        = pre.length + (batchGo lu lp (e :: p :: ps) (foldState lu lp pre ⟨0, 0, false⟩)).requests := hsplit.2
      _ = pre.length + ((batchGo lu lp (p :: ps) (stepState lu lp (foldState lu lp pre ⟨0, 0, false⟩) e)).requests + 1) := by
          rw [hcons]
      _ = pre.length + 1 := by rw [hbreak]
  refine ⟨hreq, ?_, ?_, ?_⟩
  · rw [hst]
    simpa using hle
  · rw [hst]
    simp [List.length_cons]
  · rw [hst]

/-- C1 counterexample: three identifiers with expiry detected on the first
request (k = 1, N = 3).  One request is issued and the final tally counts
2 failed, not the N - k + 1 = 3 the claim states: the bulk assignment
drops the expiry item's own failure increment. -/
theorem c1_counterexample :
    (runBatch "https://m.ex/login" "/login" [redirResp, okResp, okResp]).requests = 1 ∧
    (runBatch "https://m.ex/login" "/login" [redirResp, okResp, okResp]).st.success_count = 0 ∧
    (runBatch "https://m.ex/login" "/login" [redirResp, okResp, okResp]).st.failure_count = 2 ∧
    (runBatch "https://m.ex/login" "/login" [redirResp, okResp, okResp]).st.failure_count ≠ 3 := by
  decide

/-- Witness for the amended C1 theorem at a concrete input: N = 2, expiry
on the first request, so 1 request and 1 counted failure. -/
theorem c1_expiry_run_tally_witness :
    (runBatch "https://m.ex/login" "/login" ([] ++ redirResp :: [okResp])).requests = 1 ∧
    (runBatch "https://m.ex/login" "/login" ([] ++ redirResp :: [okResp])).st.failure_count = 1 := by
  have h := c1_expiry_run_tally "https://m.ex/login" "/login" [] [okResp] redirResp
    (by decide) (by decide) (by decide)
  exact ⟨by simpa using h.1, by simpa using h.2.2.1⟩

/-- C3: once the session-expiry flag is set, the batch loop issues no
further network request and takes no pause, and the remaining identifiers
are counted failed/skipped in one bulk assignment without being inspected
individually. -/
theorem c3_expired_short_circuit (lu lp : String) (st : BatchState)
    (l : List FetchResult) (hexp : st.session_expired = true) :
    (batchGo lu lp l st).requests = 0 ∧
    (batchGo lu lp l st).sleeps = 0 ∧
    (batchGo lu lp l st).st.success_count = st.success_count ∧
    (batchGo lu lp l st).st.session_expired = true ∧
    (l ≠ [] → (batchGo lu lp l st).st.failure_count = l.length) := by
  cases l with
  | nil => simp [batchGo, hexp]
  | cons fr rest => simp [batchGo_break lu lp st fr rest hexp, List.length_cons]

/-- Witness for the C3 theorem: an expired state facing two further
identifiers issues no request and bulk-counts both as failed. -/
theorem c3_expired_short_circuit_witness :
    (batchGo "https://m.ex/login" "/login" [okResp, okResp] ⟨1, 1, true⟩).requests = 0 ∧
    (batchGo "https://m.ex/login" "/login" [okResp, okResp] ⟨1, 1, true⟩).st.failure_count = 2 := by
  have h := c3_expired_short_circuit "https://m.ex/login" "/login" ⟨1, 1, true⟩ [okResp, okResp] rfl
  exact ⟨h.1, h.2.2.2.2 (by decide)⟩

/-- C8: a full run in which the expiry flag never fires issues one request
per identifier and sleeps the configured inter-request delay exactly
N - 1 times: after every item except the last. -/
theorem c8_sleep_count (lu lp : String) (outcomes : List FetchResult)
    (h : (runBatch lu lp outcomes).st.session_expired = false) :
    (runBatch lu lp outcomes).sleeps = outcomes.length - 1 ∧
    (runBatch lu lp outcomes).requests = outcomes.length := by
  have h2 := batchGo_no_expiry lu lp outcomes ⟨0, 0, false⟩ rfl h
  rw [show runBatch lu lp outcomes = batchGo lu lp outcomes ⟨0, 0, false⟩ from rfl, h2]
  exact ⟨rfl, rfl⟩

/-- C6: a batch item whose request returns a 2xx status at a final URL not
matching the login page is counted successful; the presence of an error or
permission marker on the page is reported through the warning flag only
and neither prevents the success increment nor adds a failure. -/
theorem c6_soft_marker_success (lu lp u : String) (s : Nat) (pg : StatsPage)
    (st : BatchState)
    (hnotlogin : respIsLoginPage lu lp u = false)
    (h2a : 200 ≤ s) (h2b : s ≤ 299) :
    (processItem lu lp st (.resp u s pg)).state.success_count = st.success_count + 1 ∧
    (processItem lu lp st (.resp u s pg)).state.failure_count = st.failure_count ∧
    (processItem lu lp st (.resp u s pg)).state.session_expired = st.session_expired ∧
    (processItem lu lp st (.resp u s pg)).warned = hasErrorMarker pg := by
  have h4 : ¬ (400 ≤ s) := by omega
  have herr : isHTTPErrorStatus s = false := by
    simp [isHTTPErrorStatus, decide_eq_false h4]
  simp [processItem, hnotlogin, herr]

/-- Witness for the C6 theorem: a 2xx response carrying an error box still
increments the success count, with the warning flag set. -/
theorem c6_soft_marker_success_witness :
    hasErrorMarker pageMarked = true ∧
    (processItem "https://m.ex/login" "/login" ⟨0, 0, false⟩
      (.resp "https://m.ex/mod/quiz/report.php?id=101&mode=statistics" 200 pageMarked)).state.success_count = 1 ∧
    (processItem "https://m.ex/login" "/login" ⟨0, 0, false⟩
      (.resp "https://m.ex/mod/quiz/report.php?id=101&mode=statistics" 200 pageMarked)).warned = true := by
  have h := c6_soft_marker_success "https://m.ex/login" "/login"
    "https://m.ex/mod/quiz/report.php?id=101&mode=statistics" 200 pageMarked ⟨0, 0, false⟩
    (by decide) (by decide) (by decide)
  refine ⟨by decide, by rw [h.1], ?_⟩
  rw [h.2.2.2]
  decide

/-- C7: `Timeout`, `HTTPError` and generic network errors each count the
item failed without aborting the run; an `HTTPError` whose status is 401
or 403 additionally sets the expiry flag, after which the loop issues no
further request. -/
theorem c7_exception_classification (lu lp u : String) (s : Nat)
    (pg : StatsPage) (st : BatchState)
    (hst : st.session_expired = false)
    (hnotlogin : respIsLoginPage lu lp u = false)
    (herr : isHTTPErrorStatus s = true) :
    (processItem lu lp st FetchResult.timeout).state
        = ⟨st.success_count, st.failure_count + 1, false⟩ ∧
    (processItem lu lp st FetchResult.netError).state
        = ⟨st.success_count, st.failure_count + 1, false⟩ ∧
    (processItem lu lp st (.resp u s pg)).state
        = ⟨st.success_count, st.failure_count + 1, (s == 401 || s == 403)⟩ ∧
    ((s == 401 || s == 403) = true →
      ∀ l : List FetchResult,
        (batchGo lu lp l (processItem lu lp st (.resp u s pg)).state).requests = 0) := by
  refine ⟨by simp [processItem, hst], by simp [processItem, hst],
    by simp [processItem, hnotlogin, herr, hst], ?_⟩
  intro hflag l
  have hexp : (processItem lu lp st (.resp u s pg)).state.session_expired = true := by
    simp [processItem, hnotlogin, herr, hst, hflag]
  cases l with
  | nil => simp [batchGo]
  | cons fr rest => simp [batchGo_break lu lp _ fr rest hexp]

/-- Witness for the C7 theorem: a timeout counts one failure; a 401
response at a non-login URL counts one failure and flags expiry. -/
theorem c7_exception_classification_witness :
    (processItem "https://m.ex/login" "/login" ⟨0, 0, false⟩ FetchResult.timeout).state.failure_count = 1 ∧
    (processItem "https://m.ex/login" "/login" ⟨0, 0, false⟩
      (.resp "https://m.ex/mod/quiz/report.php?id=101&mode=statistics" 401 pagePlain)).state.session_expired = true := by
  have h := c7_exception_classification "https://m.ex/login" "/login"
    "https://m.ex/mod/quiz/report.php?id=101&mode=statistics" 401 pagePlain ⟨0, 0, false⟩
    rfl (by decide) (by decide)
  refine ⟨by rw [h.1], by rw [h.2.2.1]; decide⟩

/-- C9: the login-page / session-expired classification is substring
containment of the full login URL or the normalised login path in the
final URL: any matching response takes the expiry branch of the batch
loop whatever its status, a non-matching response becomes expired only
through the 401/403 handler, and Stage 1 declares the login failed by the
same containment test on the post-submission URL. -/
theorem c9_substring_classification (cfg : Config) (env : RunEnv)
    (s1 : Nat) (tok : Bool) (u : String) (s2 : Nat) (page : LoginPage)
    (st : BatchState) (s : Nat) (pg : StatsPage) (v : String)
    (hst : st.session_expired = false)
    (hget : env.getLogin = .resp s1 tok) (h1 : isHTTPErrorStatus s1 = false)
    (hpost : env.postLogin = .resp u s2 page) (h2 : isHTTPErrorStatus s2 = false) :
    respIsLoginPage (cfgLoginURL cfg) (cfgLoginPath cfg) v
        = (strContains v (cfgLoginURL cfg) || strContains v (cfgLoginPath cfg)) ∧
    (respIsLoginPage (cfgLoginURL cfg) (cfgLoginPath cfg) v = true →
      processItem (cfgLoginURL cfg) (cfgLoginPath cfg) st (.resp v s pg)
        = ⟨⟨st.success_count, st.failure_count + 1, true⟩, true, false⟩) ∧
    (respIsLoginPage (cfgLoginURL cfg) (cfgLoginPath cfg) v = false →
      (processItem (cfgLoginURL cfg) (cfgLoginPath cfg) st (.resp v s pg)).state.session_expired
        = (isHTTPErrorStatus s && (s == 401 || s == 403))) ∧
    (runScript cfg env).loginFailMsg.isSome
        = respIsLoginPage (cfgLoginURL cfg) (cfgLoginPath cfg) u := by
  refine ⟨rfl, ?_, ?_, ?_⟩
  · intro h
    simp [processItem, h]
  · intro h
    by_cases herr : isHTTPErrorStatus s = true
    · simp [processItem, h, herr, hst]
    · rw [Bool.not_eq_true] at herr
      simp [processItem, h, herr, hst]
  · by_cases hu : respIsLoginPage (cfgLoginURL cfg) (cfgLoginPath cfg) u = true
    · simp [runScript, hget, hpost, h1, h2, hu]
    · rw [Bool.not_eq_true] at hu
      cases hck : findSessionCookie env.cookieNames with
      | none => simp [runScript, hget, hpost, h1, h2, hu, hck]
      | some c =>
        cases hqf : env.quizFile with
        | none => simp [runScript, hget, hpost, h1, h2, hu, hck, hqf]
        | some lines =>
          by_cases hids : (read_quiz_ids_from_file lines).quiz_ids.isEmpty = true
          · simp [runScript, hget, hpost, h1, h2, hu, hck, hqf, hids]
          · rw [Bool.not_eq_true] at hids
            simp [runScript, hget, hpost, h1, h2, hu, hck, hqf, hids]

/-- Witness for the C9 theorem: a URL that strictly contains the login URL
(query string appended) is classified as the login page, so a login
submission landing there is declared failed. -/
theorem c9_substring_classification_witness :
    (runScript cfgEx envQueryLogin).loginFailMsg.isSome = true ∧
    respIsLoginPage (cfgLoginURL cfgEx) (cfgLoginPath cfgEx)
      "https://m.ex/login?testsession=1" = true ∧
    "https://m.ex/login?testsession=1" ≠ cfgLoginURL cfgEx := by
  have h := c9_substring_classification cfgEx envQueryLogin 200 true
    "https://m.ex/login?testsession=1" 200 pageNoErrDivs ⟨0, 0, false⟩ 200 pagePlain
    "https://m.ex/login?testsession=1" rfl rfl (by decide) rfl (by decide)
  refine ⟨?_, by decide, by decide⟩
  rw [h.2.2.2]
  decide

/-- C5: a login submission whose final URL matches the login page is
reported failed with the text of the first matching error div (in the
fixed order `id='loginerrormessage'`, `class='loginerrors'`,
`class='alert-danger'`, then the generic fallback), the process exits with
status 1, and no batch statistics request is issued. -/
theorem c5_login_failure (cfg : Config) (env : RunEnv) (s1 : Nat) (tok : Bool)
    (u : String) (s2 : Nat) (page : LoginPage)
    (hget : env.getLogin = .resp s1 tok) (h1 : isHTTPErrorStatus s1 = false)
    (hpost : env.postLogin = .resp u s2 page) (h2 : isHTTPErrorStatus s2 = false)
    (hurl : respIsLoginPage (cfgLoginURL cfg) (cfgLoginPath cfg) u = true) :
    (runScript cfg env).exitCode = 1 ∧
    (runScript cfg env).batchRequests = 0 ∧
    (runScript cfg env).summaryEmitted = false ∧
    (runScript cfg env).loginFailMsg = some (loginErrorText page) ∧
    (∀ a b c, loginErrorText ⟨some a, b, c⟩ = a) ∧
    (∀ b c, loginErrorText ⟨none, some b, c⟩ = b) ∧
    (∀ c, loginErrorText ⟨none, none, some c⟩ = c) ∧
    loginErrorText ⟨none, none, none⟩ = genericLoginError := by
  refine ⟨?_, ?_, ?_, ?_, fun a b c => rfl, fun b c => rfl, fun c => rfl, rfl⟩ <;>
    simp [runScript, hget, hpost, h1, h2, hurl]

/-- Witness for the C5 theorem: the concrete failed-login run exits 1 with
the generic message and issues no batch request. -/
theorem c5_login_failure_witness :
    (runScript cfgEx envLoginFail).exitCode = 1 ∧
    (runScript cfgEx envLoginFail).batchRequests = 0 ∧
    (runScript cfgEx envLoginFail).loginFailMsg = some genericLoginError := by
  have h := c5_login_failure cfgEx envLoginFail 200 true "https://m.ex/login" 200
    pageNoErrDivs rfl (by decide) rfl (by decide) (by decide)
  exact ⟨h.1, h.2.1, by rw [h.2.2.2.1]; rfl⟩

/-- C2 counterexample: a failed-login run is an exit path of the main
stage, yet the summary is not emitted (the `finally` guard sees no
`quiz_ids`). -/
theorem c2_counterexample :
    (runScript cfgEx envLoginFail).summaryEmitted = false ∧
    (runScript cfgEx envLoginFail).exitCode = 1 := by
  decide

/-- C2 (amended to the code): the closing summary is emitted, exactly once
and with attempted = succeeded + failed, precisely on runs that reach the
batch stage; every exit path taken before the identifier list is
successfully read emits no summary, and the empty-list early exit crashes
inside the summary block before reporting any counts. -/
theorem c2_summary_iff_batch (cfg : Config) (env : RunEnv) :
    (runScript cfg env).summaryEmitted = reachesBatch cfg env ∧
    (runScript cfg env).summary.isSome = reachesBatch cfg env ∧
    (∀ sm, (runScript cfg env).summary = some sm →
      sm.attempted = sm.succeeded + sm.failed) := by
  rcases env with ⟨g, p, cns, qf, f⟩
  cases g with
  | exc => simp [runScript, reachesBatch]
  | resp s1 tok =>
    by_cases hs1 : isHTTPErrorStatus s1 = true
    · simp [runScript, reachesBatch, hs1]
    · rw [Bool.not_eq_true] at hs1
      cases p with
      | exc => simp [runScript, reachesBatch, hs1]
      | resp u s2 page =>
        by_cases hs2 : isHTTPErrorStatus s2 = true
        · simp [runScript, reachesBatch, hs1, hs2]
        · rw [Bool.not_eq_true] at hs2
          by_cases hu : respIsLoginPage (cfgLoginURL cfg) (cfgLoginPath cfg) u = true
          · simp [runScript, reachesBatch, hs1, hs2, hu]
          · rw [Bool.not_eq_true] at hu
            cases hck : findSessionCookie cns with
            | none => simp [runScript, reachesBatch, hs1, hs2, hu, hck]
            | some c =>
              cases qf with
              | none => simp [runScript, reachesBatch, hs1, hs2, hu, hck]
              | some lines =>
                by_cases hids : (read_quiz_ids_from_file lines).quiz_ids.isEmpty = true
                · simp [runScript, reachesBatch, hs1, hs2, hu, hck, hids]
                · rw [Bool.not_eq_true] at hids
                  refine ⟨?_, ?_, ?_⟩
                  · simp [runScript, reachesBatch, hs1, hs2, hu, hck, hids]
                  · simp [runScript, reachesBatch, hs1, hs2, hu, hck, hids]
                  · intro sm hsm
                    simp [runScript, hs1, hs2, hu, hck, hids] at hsm
                    subst hsm
                    rfl

/-- Witness for the C2 theorem: the fully successful three-id run reaches
the batch stage and reports the summary 3 read / 3 attempted / 3
succeeded / 0 failed. -/
theorem c2_summary_iff_batch_witness :
    (runScript cfgEx envGood).summaryEmitted = reachesBatch cfgEx envGood ∧
    reachesBatch cfgEx envGood = true ∧
    (runScript cfgEx envGood).summary = some ⟨3, 3, 3, 0⟩ := by
  refine ⟨(c2_summary_iff_batch cfgEx envGood).1, by decide, by decide⟩

/-- Witness for the C8 theorem: three successful items, two pauses. -/
theorem c8_sleep_count_witness :
    (runBatch "https://m.ex/login" "/login" [okResp, okResp, okResp]).st.session_expired = false ∧
    (runBatch "https://m.ex/login" "/login" [okResp, okResp, okResp]).sleeps = 2 ∧
    (runBatch "https://m.ex/login" "/login" [okResp, okResp, okResp]).requests = 3 := by
  have h0 : (runBatch "https://m.ex/login" "/login" [okResp, okResp, okResp]).st.session_expired = false := by
    decide
  have h := c8_sleep_count "https://m.ex/login" "/login" [okResp, okResp, okResp] h0
  exact ⟨h0, by simpa using h.1, by simpa using h.2⟩

/-- Unfolding `List.enumFrom` over a cons cell. -/
theorem enumFrom_cons_eq {α : Type} (n : Nat) (a : α) (l : List α) :
    List.enumFrom n (a :: l) = (n, a) :: List.enumFrom (n + 1) l := rfl

/-- The parser loop keeps exactly the kept entries, in order, and warns
exactly on the non-numeric lines, tagged with their 1-based numbers
counted from `n`. -/
theorem readGo_characterization (lines : List String) :
    ∀ n : Nat,
      readGo n lines
        = ⟨lines.filterMap keptId,
           (List.enumFrom n lines).filterMap
             (fun q => if isWarnLine q.2 then some q.1 else none)⟩ := by
  induction lines with
  | nil => intro n; simp [readGo]
  | cons l rest ih =>
    intro n
    by_cases hb : ((pyStrip l).data.isEmpty || isHashStart (pyStrip l)) = true
    · have hk : keptId l = none := by simp [keptId, hb]
      have hw : isWarnLine l = false := by simp [isWarnLine, hb]
      simp [readGo, hb, ih (n + 1), enumFrom_cons_eq, List.filterMap_cons, hk, hw]
    · rw [Bool.not_eq_true] at hb
      cases hint : pyInt (pyStrip l) with
      | some v =>
        have hk : keptId l = some v := by simp [keptId, hb, hint]
        have hw : isWarnLine l = false := by simp [isWarnLine, hb, hint]
        simp [readGo, hb, hint, ih (n + 1), enumFrom_cons_eq, List.filterMap_cons, hk, hw]
      | none =>
        have hk : keptId l = none := by simp [keptId, hb, hint]
        have hw : isWarnLine l = true := by simp [isWarnLine, hb, hint]
        simp [readGo, hb, hint, ih (n + 1), enumFrom_cons_eq, List.filterMap_cons, hk, hw]

/-- C4 (amended to the code): the parser keeps exactly the integer values
of the stripped non-blank, non-comment lines, in their original order and
with duplicates preserved; blank and comment lines are excluded silently,
and the skip warning is recorded exactly for the remaining lines that fail
integer parsing, one warning per such line. -/
theorem c4_parser_characterization (lines : List String) :
    read_quiz_ids_from_file lines
      = ⟨lines.filterMap keptId,
         (List.enumFrom 1 lines).filterMap
           (fun q => if isWarnLine q.2 then some q.1 else none)⟩ :=
  readGo_characterization lines 1

/-- C4 counterexample: a comment line and a blank line are excluded from
the identifier sequence, yet no warning is recorded for either, refuting
the claim that a warning is recorded for every skipped line. -/
theorem c4_counterexample :
    read_quiz_ids_from_file ["# header", "   ", "12"] = ⟨[12], []⟩ := by
  decide

/-- A line whose stripped text parses as an integer is a kept entry: the
parse already rules out blankness and a leading `#`. -/
theorem pyInt_some_keptId (l : String) (v : Int)
    (h : pyInt (pyStrip l) = some v) : keptId l = some v := by
  rcases hd : (pyStrip l).data with _ | ⟨c, cs⟩
  · rw [pyInt, hd] at h
    simp [pyDigits] at h
  · have hhash : (c == '#') = false := by
      by_cases hc : c = '#'
      · subst hc
        rw [pyInt, hd] at h
        have e1 : ('#' == '+') = false := by decide
        have e2 : ('#' == '-') = false := by decide
        have e3 : Char.isDigit '#' = false := by decide
        simp [e1, e2, pyDigits, e3] at h
      · simp [hc]
    have hcond : ((pyStrip l).data.isEmpty || isHashStart (pyStrip l)) = false := by
      simp [hd, List.isEmpty, isHashStart, hhash]
    simp [keptId, hcond, h]

/-- C10: any line whose stripped text parses as an integer -- zero,
negative, or with an explicit sign -- is appended to the identifier
sequence like any other entry; positivity is not enforced. -/
theorem c10_signed_entries_accepted (lines : List String) (l : String) (v : Int)
    (h : pyInt (pyStrip l) = some v) :
    (read_quiz_ids_from_file (lines ++ [l])).quiz_ids
      = (read_quiz_ids_from_file lines).quiz_ids ++ [v] := by
  have hk := pyInt_some_keptId l v h
  rw [show read_quiz_ids_from_file (lines ++ [l]) = readGo 1 (lines ++ [l]) from rfl,
    show read_quiz_ids_from_file lines = readGo 1 lines from rfl,
    readGo_characterization (lines ++ [l]) 1, readGo_characterization lines 1]
  simp [List.filterMap_append, List.filterMap_cons, hk]

/-- Witness for the C10 theorem: `-7`, `0` and `+5` are all accepted and
appended in order after an ordinary positive entry. -/
theorem c10_signed_entries_accepted_witness :
    (read_quiz_ids_from_file (["12", "0", "+5"] ++ ["-7"])).quiz_ids
      = (read_quiz_ids_from_file ["12", "0", "+5"]).quiz_ids ++ [-7] ∧
    (read_quiz_ids_from_file (["12", "0", "+5"] ++ ["-7"])).quiz_ids = [12, 0, 5, -7] := by
  refine ⟨c10_signed_entries_accepted ["12", "0", "+5"] "-7" (-7) (by decide), by decide⟩
